import Mathlib

/-!
Verification of the iCE40 power-analysis tool (script/power_analysis.py).

The development shallowly embeds the three components of the script:
the VCD switching analyzer (VCDSwitchingAnalyzer), the device power
model (ICE40PowerModel) and the power estimator
(GenericPowerEstimator.calculate).  Python floats are modelled as real
numbers; Python dicts keyed by strings are modelled as association
lists.
-/

/-- Mirrors the Python expression `s.lower()` on ASCII strings:
every character is lowered individually. -/
def strLower (s : String) : String := ⟨s.data.map Char.toLower⟩

/-- Substring test on character lists: true when `needle` occurs as a
contiguous run inside `hay`.  Mirrors the Python expression
`needle in hay` on strings. -/
def subOf (needle : List Char) : List Char → Bool
  | [] => needle.isEmpty
  | c :: rest => needle.isPrefixOf (c :: rest) || subOf needle rest

/-- The Python membership test `needle in hay` for strings. -/
def substrIn (needle hay : String) : Bool := subOf needle.data hay.data

/-- Lookup in an association list; mirrors `d.get(k)` on a Python dict
(returning `None`, i.e. `none`, when the key is absent). -/
def getKey {β : Type} : List (String × β) → String → Option β
  | [], _ => none
  | (k2, v2) :: rest, k => if k = k2 then some v2 else getKey rest k

/-- Update-or-insert in an association list; mirrors `d[k] = v` on a
Python dict. -/
def setKey {β : Type} : List (String × β) → String → β → List (String × β)
  | [], k, v => [(k, v)]
  | (k2, v2) :: rest, k, v =>
      if k = k2 then (k, v) :: rest else (k2, v2) :: setKey rest k v

/-- One line of the value-change section of a VCD file, as pre-classified
by the regexes of `VCDSwitchingAnalyzer._count_toggles`:
`timestamp t` stands for a line matching `#<digits>`;
`change val sid` stands for a line matching either single-bit regex
`([01xz])(\S+)` or vector regex `[bB]([01xz]+)\s+(\S+)`, with `val` the
captured value text (characters among 0, 1, x, z) and `sid` the captured
identifier; `blank` stands for any other line, which the scan skips. -/
inductive VCDLine where
  | timestamp (t : ℕ)
  | change (val : String) (sid : String)
  | blank
deriving DecidableEq

/-- The mutable state of `VCDSwitchingAnalyzer._count_toggles`:
the `toggles` dict, the `states` dict, `current_time`, and the
analyzer field `self.total_time` (0 before the scan). -/
structure CountState where
  toggles : List (String × ℕ)
  states : List (String × String)
  current_time : ℕ
  total_time : ℕ
deriving DecidableEq

/-- The initial state of the scan: both dicts empty, both times 0. -/
def initCount : CountState := ⟨[], [], 0, 0⟩

/-- One iteration of the line loop of
`VCDSwitchingAnalyzer._count_toggles`.  A timestamp line updates
`current_time` and folds the running maximum into `total_time`.  A
value-change line whose identifier is known counts a toggle exactly when
the stored state differs from the new value AND the character x does not
occur in the value (the Python condition
`states.get(name) != val and 'x' not in val`); in that case the count is
incremented and the state replaced, otherwise the line leaves the state
untouched. -/
def processLine (id_to_name : List (String × String)) (st : CountState) :
    VCDLine → CountState
  | .timestamp t =>
      { st with current_time := t, total_time := max st.total_time t }
  | .change val sid =>
      match getKey id_to_name sid with
      | none => st
      | some name =>
          if (getKey st.states name != some val) && !(val.data.contains 'x') then
            { st with
              toggles := setKey st.toggles name ((getKey st.toggles name).getD 0 + 1),
              states := setKey st.states name val }
          else st
  | .blank => st

/-- `VCDSwitchingAnalyzer._count_toggles`: fold the line loop over the
lines of the file, starting from empty dicts. -/
def count_toggles (id_to_name : List (String × String))
    (lines : List VCDLine) : CountState :=
  lines.foldl (processLine id_to_name) initCount

/-- The dynamic-power categories of the breakdown dict in
`GenericPowerEstimator.calculate` that a signal can be classified into. -/
inductive SigCat where
  | flip_flops
  | io
  | logic
deriving DecidableEq

/-- The signal-classification heuristic inlined in the with-trace branch
of `GenericPowerEstimator.calculate` (lines 201-206): first the test
`any(x in sig.lower() for x in ['reg', 'ff', 'dff'])`, then the test
`len(sig) <= 3 or 'pin' in sig.lower()`, else logic. -/
def classify (sig : String) : SigCat :=
  if substrIn "reg" (strLower sig) || substrIn "ff" (strLower sig)
      || substrIn "dff" (strLower sig) then
    SigCat.flip_flops
  else if decide (sig.data.length ≤ 3) || substrIn "pin" (strLower sig) then
    SigCat.io
  else
    SigCat.logic

/-- The clock-name test of `VCDSwitchingAnalyzer._detect_clock_period`:
the regex match `re.match(r'^(clk|clock|sys_clk)$', name, re.IGNORECASE)`,
a case-insensitive exact comparison against the three aliases. -/
def isClockName (name : String) : Bool :=
  strLower name == "clk" || strLower name == "clock" || strLower name == "sys_clk"

/-- The period computation of `VCDSwitchingAnalyzer._detect_clock_period`
on the list of edge timestamps extracted for the chosen clock signal:
with at least three edges, average the spacings `times[i+2] - times[i]`
and scale by the timescale; otherwise report 0.0 (no period). -/
noncomputable def detect_clock_period (times : List ℕ) (timescale : ℝ) : ℝ :=
  if 3 ≤ times.length then
    ((((List.range (times.length - 2)).map
        (fun i => (times.getD (i + 2) 0 : ℤ) - (times.getD i 0 : ℤ))).sum : ℤ) : ℝ) /
      ((times.length - 2 : ℕ) : ℝ) * timescale
  else 0

/-- The signal-selection step of
`VCDSwitchingAnalyzer._detect_clock_period`: filter the declared signals
by the clock-name test; with no match return 0.0, otherwise run the
period computation on the edge times of the first match. -/
noncomputable def detect_clock_from_signals (sigs : List (String × List ℕ))
    (timescale : ℝ) : ℝ :=
  match sigs.filter (fun p => isClockName p.1) with
  | [] => 0
  | c :: _ => detect_clock_period c.2 timescale

/-- The units dict of `VCDSwitchingAnalyzer.parse_vcd` together with its
`.get(unit, 1e-9)` default. -/
noncomputable def unitScale (u : String) : ℝ :=
  if u = "s" then 1
  else if u = "ms" then 1e-3
  else if u = "us" then 1e-6
  else if u = "ns" then 1e-9
  else if u = "ps" then 1e-12
  else 1e-9

/-- The timescale computed by `VCDSwitchingAnalyzer.parse_vcd` from a
matched `timescale` directive: `value * units.get(unit, 1e-9)`. -/
noncomputable def timescaleOf (value : ℕ) (u : String) : ℝ :=
  (value : ℝ) * unitScale u

/-- The `STATIC_POWER` table of `ICE40PowerModel` (mW at 25 C and 1.2 V).
Indexing a key outside the table raises `KeyError` in Python; after
`__post_init__` the device is always in the table, so the final branch is
unreachable and is given the junk value 0. -/
noncomputable def STATIC_POWER (d : String) : ℝ :=
  if d = "hx1k" then 15.0
  else if d = "hx4k" then 25.0
  else if d = "hx8k" then 35.0
  else if d = "lp1k" then 8.0
  else if d = "lp4k" then 12.0
  else if d = "lp8k" then 18.0
  else if d = "up5k" then 10.0
  else 0

/-- The `DEVICE_CAPACITY` table of `ICE40PowerModel`, already combined
with the `.get(self.device, 7680)` default used by `total_capacity`. -/
def DEVICE_CAPACITY (d : String) : ℕ :=
  if d = "hx1k" then 1280
  else if d = "hx4k" then 3520
  else if d = "hx8k" then 7680
  else if d = "lp1k" then 1280
  else if d = "lp4k" then 3520
  else if d = "lp8k" then 7680
  else if d = "up5k" then 5280
  else 7680

/-- Membership of a device string in the `STATIC_POWER` table, the test
`self.device not in self.STATIC_POWER` of `__post_init__` (negated). -/
def knownDevice (d : String) : Bool :=
  d == "hx1k" || d == "hx4k" || d == "hx8k" || d == "lp1k"
    || d == "lp4k" || d == "lp8k" || d == "up5k"

/-- `ICE40PowerModel.__post_init__`: lower-case the device and replace an
unknown device by the default hx8k (with a printed warning). -/
def postInitDevice (d : String) : String :=
  if knownDevice (strLower d) then strLower d else "hx8k"

/-- The `ICE40PowerModel` dataclass after `__post_init__` has run:
`device` is already normalized. -/
structure ICE40PowerModel where
  device : String
  temp_c : ℝ
  voltage_v : ℝ

/-- Constructing an `ICE40PowerModel`, running `__post_init__`. -/
def mkModel (device : String) (temp_c voltage_v : ℝ) : ICE40PowerModel :=
  ⟨postInitDevice device, temp_c, voltage_v⟩

/-- `ICE40PowerModel.static_power_mw`: base static power corrected by a
temperature factor `2 ** ((temp_c - 25) / 12)` and a voltage factor
`(voltage_v / 1.2) ** 2`. -/
noncomputable def ICE40PowerModel.static_power_mw (m : ICE40PowerModel) : ℝ :=
  STATIC_POWER m.device * (2 : ℝ) ^ ((m.temp_c - 25.0) / 12.0) *
    (m.voltage_v / 1.2) ^ 2

/-- `ICE40PowerModel.lc_dynamic_nj`: per-toggle logic-cell energy in nJ,
base 0.12 for lp devices and 0.15 otherwise, voltage-squared scaled. -/
noncomputable def ICE40PowerModel.lc_dynamic_nj (m : ICE40PowerModel) : ℝ :=
  (if m.device.startsWith "lp" then 0.12 else 0.15) * (m.voltage_v / 1.2) ^ 2

/-- `ICE40PowerModel.ff_dynamic_nj`: per-toggle flip-flop energy in nJ,
base 0.08 for lp devices and 0.10 otherwise, voltage-squared scaled. -/
noncomputable def ICE40PowerModel.ff_dynamic_nj (m : ICE40PowerModel) : ℝ :=
  (if m.device.startsWith "lp" then 0.08 else 0.10) * (m.voltage_v / 1.2) ^ 2

/-- `ICE40PowerModel.io_dynamic_nj`: per-toggle I/O energy in nJ,
voltage-squared scaled. -/
noncomputable def ICE40PowerModel.io_dynamic_nj (m : ICE40PowerModel) : ℝ :=
  2.5 * (m.voltage_v / 1.2) ^ 2

/-- `ICE40PowerModel.clock_tree_mw_per_mhz`: clock-tree power per MHz,
base 0.06 for lp devices and 0.08 otherwise, voltage-squared scaled. -/
noncomputable def ICE40PowerModel.clock_tree_mw_per_mhz (m : ICE40PowerModel) : ℝ :=
  (if m.device.startsWith "lp" then 0.06 else 0.08) * (m.voltage_v / 1.2) ^ 2

/-- `ICE40PowerModel.total_capacity`:
`DEVICE_CAPACITY.get(device, 7680)`. -/
def ICE40PowerModel.total_capacity (m : ICE40PowerModel) : ℕ :=
  DEVICE_CAPACITY m.device

/-- The resource counts consumed by `GenericPowerEstimator`.
`global_buffers` is read through `stats.get('global_buffers', 1)`;
when the key is absent (notably in the no-log default dict of
`DesignStatsExtractor.extract`, whose fourth key is `gb`) the value
read is 1, which the construction of a `Stats` value accounts for. -/
structure Stats where
  logic_cells : ℕ
  flip_flops : ℕ
  io_cells : ℕ
  global_buffers : ℕ

/-- The default profile of `DesignStatsExtractor.extract` with no
synthesis log, as seen by the estimator (the dict carries the key `gb`,
so `stats.get('global_buffers', 1)` reads 1). -/
def defaultStats : Stats := ⟨100, 100, 10, 1⟩

/-- The sum of all toggle counts: `sum(vcd_toggles.values())`. -/
def togSum (vcd_toggles : List (String × ℕ)) : ℕ :=
  (vcd_toggles.map (fun p => p.2)).sum

/-- The branch condition `if not vcd_toggles:` at the start of the
dynamic-power computation of `GenericPowerEstimator.calculate`: the
statistical fallback runs exactly when the toggle dict is empty, and the
simulation duration plays no part in the choice. -/
def usesStatisticalFallback (vcd_toggles : List (String × ℕ)) : Bool :=
  vcd_toggles.isEmpty

/-- The per-category dynamic power dict of
`GenericPowerEstimator.calculate` (watt-level sums). -/
structure Breakdown where
  logic : ℝ
  flip_flops : ℝ
  io : ℝ
  routing : ℝ

/-- The quantities computed by `GenericPowerEstimator.calculate` before
report formatting: the (possibly re-derived) clock frequency, the three
power terms, the category dict and the two totals. -/
structure PowerResult where
  clock_mhz : ℝ
  static : ℝ
  clock_tree : ℝ
  breakdown : Breakdown
  dynamic_mw : ℝ
  total_mw : ℝ

/-- The body of the with-trace loop of `GenericPowerEstimator.calculate`
(lines 199-206): one signal adds `rate * energy * 1e-9` to the category
chosen by the classification heuristic, where `rate = count / sim_time_s`.
In Python the division raises `ZeroDivisionError` when `sim_time_s` is
0.0; here real division totalizes it to 0. -/
noncomputable def addSignal (m : ICE40PowerModel) (sim_time_s : ℝ)
    (bd : Breakdown) (sc : String × ℕ) : Breakdown :=
  let rate := (sc.2 : ℝ) / sim_time_s
  match classify sc.1 with
  | SigCat.flip_flops =>
      { bd with flip_flops := bd.flip_flops + rate * m.ff_dynamic_nj * 1e-9 }
  | SigCat.io => { bd with io := bd.io + rate * m.io_dynamic_nj * 1e-9 }
  | SigCat.logic => { bd with logic := bd.logic + rate * m.lc_dynamic_nj * 1e-9 }

/-- `GenericPowerEstimator.calculate`.  Line numbers refer to
script/power_analysis.py: the clock re-derivation of lines 183-184, the
static and clock-tree terms of lines 186-187, the statistical fallback of
lines 191-197 or the with-trace loop of lines 198-206, the routing
overhead of line 208 and the totals of lines 209-210. -/
noncomputable def calculate (clock_mhz0 : ℝ) (stats : Stats)
    (m : ICE40PowerModel) (vcd_toggles : List (String × ℕ))
    (sim_time_s : ℝ) : PowerResult :=
  let clock_mhz :=
    if clock_mhz0 = 0 ∧ 0 < sim_time_s then
      1e-6 / (sim_time_s /
        max 1 (if vcd_toggles.isEmpty then 1
               else (togSum vcd_toggles : ℝ) / (vcd_toggles.length : ℝ)))
    else clock_mhz0
  let static := m.static_power_mw
  let clock_tree := m.clock_tree_mw_per_mhz * clock_mhz * (stats.global_buffers : ℝ)
  let bd0 : Breakdown :=
    if usesStatisticalFallback vcd_toggles then
      let freq_hz := clock_mhz * 1e6
      let activity := (0.15 : ℝ)
      { logic := (stats.logic_cells : ℝ) * freq_hz * activity * m.lc_dynamic_nj * 1e-9
        flip_flops := (stats.flip_flops : ℝ) * freq_hz * activity * m.ff_dynamic_nj * 1e-9
        io := (stats.io_cells : ℝ) * freq_hz * activity * m.io_dynamic_nj * 1e-9
        routing := 0 }
    else
      vcd_toggles.foldl (addSignal m sim_time_s) ⟨0, 0, 0, 0⟩
  let bd := { bd0 with routing := (bd0.logic + bd0.flip_flops) * 0.4 }
  let dynamic_mw := (bd.logic + bd.flip_flops + bd.io + bd.routing) * 1000
  let total_mw := static + clock_tree + dynamic_mw
  { clock_mhz := clock_mhz, static := static, clock_tree := clock_tree
    breakdown := bd, dynamic_mw := dynamic_mw, total_mw := total_mw }

/-- The frequency fixup of `main` (lines 271-272): with a zero `--freq`
argument and a positive detected clock period, the frequency becomes
`1e-6 / clock_period`; otherwise the argument is passed through. -/
noncomputable def mainFreq (argFreq clock_period : ℝ) : ℝ :=
  if argFreq = 0 ∧ 0 < clock_period then 1e-6 / clock_period else argFreq

/-! Helper lemmas. -/

lemma mem_setKey {β : Type} {l : List (String × β)} {k : String} {v : β}
    {p : String × β} (hp : p ∈ setKey l k v) : p = (k, v) ∨ p ∈ l := by
  induction l with
  | nil =>
      simp only [setKey, List.mem_singleton] at hp
      exact Or.inl hp
  | cons hd tl ih =>
      obtain ⟨k2, v2⟩ := hd
      by_cases hk : k = k2
      · simp only [setKey, if_pos hk, List.mem_cons] at hp
        rcases hp with h | h
        · exact Or.inl h
        · exact Or.inr (List.mem_cons_of_mem _ h)
      · simp only [setKey, if_neg hk, List.mem_cons] at hp
        rcases hp with h | h
        · exact Or.inr (by rw [h]; exact List.mem_cons_self _ _)
        · rcases ih h with h2 | h2
          · exact Or.inl h2
          · exact Or.inr (List.mem_cons_of_mem _ h2)

lemma processLine_toggle_pos (idm : List (String × String)) (st : CountState)
    (l : VCDLine) (h : ∀ p ∈ st.toggles, 1 ≤ p.2) :
    ∀ p ∈ (processLine idm st l).toggles, 1 ≤ p.2 := by
  intro p hp
  cases l with
  | timestamp t => exact h p hp
  | blank => exact h p hp
  | change val sid =>
      simp only [processLine] at hp
      split at hp
      · exact h p hp
      · split at hp
        · rcases mem_setKey hp with h2 | h2
          · rw [h2]
            exact Nat.le_add_left 1 _
          · exact h p h2
        · exact h p hp

lemma foldl_toggle_pos (idm : List (String × String)) (lines : List VCDLine) :
    ∀ st : CountState, (∀ p ∈ st.toggles, 1 ≤ p.2) →
      ∀ p ∈ (lines.foldl (processLine idm) st).toggles, 1 ≤ p.2 := by
  induction lines with
  | nil => intro st h; simpa using h
  | cons l ls ih =>
      intro st h
      rw [List.foldl_cons]
      exact ih _ (processLine_toggle_pos idm st l h)

lemma STATIC_POWER_postInit_pos (d : String) :
    0 < STATIC_POWER (postInitDevice d) := by
  rw [postInitDevice]
  split_ifs with h
  · rw [knownDevice] at h
    simp only [Bool.or_eq_true, beq_iff_eq] at h
    rcases h with ((((((h | h) | h) | h) | h) | h) | h) <;>
      rw [h] <;> simp [STATIC_POWER] <;> norm_num
  · simp [STATIC_POWER]
    norm_num

lemma calculate_clock_mhz_eq (c : ℝ) (s : Stats) (m : ICE40PowerModel)
    (t : List (String × ℕ)) (sim : ℝ) :
    (calculate c s m t sim).clock_mhz =
      if c = 0 ∧ 0 < sim then
        1e-6 / (sim /
          max 1 (if t.isEmpty then 1 else (togSum t : ℝ) / (t.length : ℝ)))
      else c := rfl

lemma zero_freq_zero_sim_clock (stats : Stats) (m : ICE40PowerModel) :
    (calculate 0 stats m [] 0).clock_mhz = 0 := by
  rw [calculate_clock_mhz_eq, if_neg (fun hc => lt_irrefl (0 : ℝ) hc.2)]

/-! Theorems for the claims. -/

/-- C5: for every computed power breakdown, the total in mW is the sum of
the static, clock-tree and dynamic terms, and the dynamic term is the sum
of the four category values converted from watts to milliwatts by the
factor 1000. -/
theorem C5_theorem (clock_mhz0 : ℝ) (stats : Stats) (m : ICE40PowerModel)
    (vcd_toggles : List (String × ℕ)) (sim_time_s : ℝ) :
    (calculate clock_mhz0 stats m vcd_toggles sim_time_s).total_mw =
      (calculate clock_mhz0 stats m vcd_toggles sim_time_s).static +
      (calculate clock_mhz0 stats m vcd_toggles sim_time_s).clock_tree +
      (calculate clock_mhz0 stats m vcd_toggles sim_time_s).dynamic_mw ∧
    (calculate clock_mhz0 stats m vcd_toggles sim_time_s).dynamic_mw =
      ((calculate clock_mhz0 stats m vcd_toggles sim_time_s).breakdown.logic +
       (calculate clock_mhz0 stats m vcd_toggles sim_time_s).breakdown.flip_flops +
       (calculate clock_mhz0 stats m vcd_toggles sim_time_s).breakdown.io +
       (calculate clock_mhz0 stats m vcd_toggles sim_time_s).breakdown.routing) * 1000 :=
  ⟨rfl, rfl⟩

/-- C1 (amended): in the value-change scan, a record whose value contains
the character x is skipped entirely (no count, no state update), and a
record whose value equals the last stored state for its signal is not
counted; records containing z but not x are, however, treated as ordinary
defined values. -/
theorem C1_theorem (idm : List (String × String)) (st : CountState)
    (val sid : String) :
    (val.data.contains 'x' = true →
      processLine idm st (VCDLine.change val sid) = st) ∧
    (∀ name, getKey idm sid = some name →
      getKey st.states name = some val →
      processLine idm st (VCDLine.change val sid) = st) := by
  constructor
  · intro hx
    simp only [processLine]
    cases hg : getKey idm sid with
    | none => rfl
    | some name =>
        have hfalse :
            ((getKey st.states name != some val) && !(val.data.contains 'x')) = false := by
          rw [hx]
          simp
        dsimp only
        rw [hfalse]
        simp
  · intro name hg hs
    simp only [processLine, hg, hs]
    simp

/-- C1 witness: a record with value x1 leaves a concrete scan state
unchanged. -/
theorem C1_witness :
    processLine [("!", "a")] ⟨[("a", 1)], [("a", "0")], 0, 0⟩
        (VCDLine.change "x1" "!") =
      ⟨[("a", 1)], [("a", "0")], 0, 0⟩ :=
  (C1_theorem [("!", "a")] ⟨[("a", 1)], [("a", "0")], 0, 0⟩ "x1" "!").1 (by decide)

/-- C1 counterexample: the claim says a record carrying a
high-impedance z bit neither increments the toggle count nor replaces the
stored state, so after the trace 0, z the count would be 1 and the stored
state "0"; the scan actually counts the z record (count 2) and stores
"z" as the new state, because the skip test only looks for the
character x. -/
theorem C1_counterexample :
    getKey (count_toggles [("!", "a")]
      [VCDLine.change "0" "!", VCDLine.change "z" "!"]).toggles "a" = some 2 ∧
    getKey (count_toggles [("!", "a")]
      [VCDLine.change "0" "!", VCDLine.change "z" "!"]).states "a" = some "z" := by
  decide

/-- C2 (amended): the classification is an ordered first-match rule in
which the flip-flop/register name test (substrings reg, ff, dff of the
lower-cased name) is evaluated before the I/O test, so every signal whose
name matches a register token is classified as flip_flops even when it
also matches an I/O token such as pin. -/
theorem C2_theorem (sig : String)
    (h : (substrIn "reg" (strLower sig) || substrIn "ff" (strLower sig)
          || substrIn "dff" (strLower sig)) = true) :
    classify sig = SigCat.flip_flops := by
  simp only [classify, h, if_pos]

/-- C2 witness: the register-token test fires on pin_reg. -/
theorem C2_witness : classify "pin_reg" = SigCat.flip_flops :=
  C2_theorem "pin_reg" (by decide)

/-- C2 counterexample: the signal name pin_reg matches both the I/O token
pin and the register token reg; the claim says it resolves to the io
category, but the scan classifies it as flip_flops because the register
test is evaluated first. -/
theorem C2_counterexample :
    classify "pin_reg" = SigCat.flip_flops ∧
    classify "pin_reg" ≠ SigCat.io := by
  decide

/-- C3: the choice between the statistical fallback and the with-trace
dynamic-power path tests only emptiness of the toggle dict; with a
non-empty toggle dict the with-trace path is always entered, regardless
of the simulation duration, so a zero duration reaches the per-signal
division `count / sim_time_s` (a `ZeroDivisionError` in Python) instead
of the fallback the claim requires. -/
theorem C3_theorem (t : List (String × ℕ)) (h : t ≠ []) :
    usesStatisticalFallback t = false := by
  cases t with
  | nil => exact absurd rfl h
  | cons a l => rfl

/-- C3 witness: a one-signal toggle dict routes to the with-trace path. -/
theorem C3_witness : usesStatisticalFallback [("a", 5)] = false :=
  C3_theorem [("a", 5)] (by decide)

/-- C10: every signal present in the toggle dict produced by the
value-change scan has a toggle count of at least 1, since a signal is
inserted only at the moment a transition is counted. -/
theorem C10_theorem (idm : List (String × String)) (lines : List VCDLine) :
    ∀ p ∈ (count_toggles idm lines).toggles, 1 ≤ p.2 :=
  foldl_toggle_pos idm lines initCount (by intro p hp; cases hp)

/-- C10 witness: the single entry of a concrete one-record scan has a
positive count. -/
theorem C10_witness : 1 ≤ (("a", 1) : String × ℕ).2 :=
  C10_theorem [("!", "a")] [VCDLine.change "0" "!"] ("a", 1) (by decide)

/-- C4 (amended): with a zero frequency argument and a detected clock
period, the frequency becomes `1e-6 / periodSeconds`; with a zero
frequency argument and no detected period, no fixed default frequency is
substituted: the zero is passed through to the estimator, and with a zero
simulation duration the computed clock frequency stays 0 (with a positive
duration the estimator instead derives it from the mean toggle count). -/
theorem C4_theorem :
    (∀ p : ℝ, 0 < p → mainFreq 0 p = 1e-6 / p) ∧
    mainFreq 0 0 = 0 ∧
    (∀ (stats : Stats) (m : ICE40PowerModel),
      (calculate (mainFreq 0 0) stats m [] 0).clock_mhz = 0) := by
  have hz : mainFreq 0 0 = (0 : ℝ) := by
    simp [mainFreq]
  refine ⟨?_, hz, ?_⟩
  · intro p hp
    rw [mainFreq, if_pos ⟨rfl, hp⟩]
  · intro stats m
    rw [hz]
    exact zero_freq_zero_sim_clock stats m

/-- C4 witness: with a detected 10 ns period the frequency becomes
100 MHz. -/
theorem C4_witness : mainFreq 0 1e-8 = 1e-6 / 1e-8 :=
  C4_theorem.1 1e-8 (by norm_num)

/-- C4 counterexample: with frequency argument 0 and no detected clock
period (period 0), no report and a zero simulation duration, the clock
frequency used by the engine is 0, not the fixed 100 MHz default the
claim describes. -/
theorem C4_counterexample :
    (calculate (mainFreq 0 0) defaultStats (mkModel "hx8k" 25 1.2) [] 0).clock_mhz
      = 0 ∧ (0 : ℝ) ≠ 100 := by
  constructor
  · have hz : mainFreq 0 0 = (0 : ℝ) := by simp [mainFreq]
    rw [hz]
    exact zero_freq_zero_sim_clock defaultStats (mkModel "hx8k" 25 1.2)
  · norm_num

/-- C6: static power is the base static power of the (normalized) device
scaled by the temperature factor `2 ^ ((temp - 25) / 12)` and the voltage
factor `(voltage / 1.2) ^ 2`; in particular for device up5k at 25 C and
1.2 V both correction factors are 1 and the static power equals the base
value 10 mW of the table. -/
theorem C6_theorem :
    (∀ (d : String) (t v : ℝ), (mkModel d t v).static_power_mw =
      STATIC_POWER (postInitDevice d) * (2 : ℝ) ^ ((t - 25.0) / 12.0) *
        (v / 1.2) ^ 2) ∧
    (mkModel "up5k" 25 1.2).static_power_mw = 10 := by
  constructor
  · intro d t v
    rfl
  · show STATIC_POWER (postInitDevice "up5k") *
        (2 : ℝ) ^ (((25 : ℝ) - 25.0) / 12.0) * ((1.2 : ℝ) / 1.2) ^ 2 = 10
    rw [show postInitDevice "up5k" = "up5k" from rfl]
    rw [show ((25 : ℝ) - 25.0) / 12.0 = 0 by norm_num, Real.rpow_zero]
    rw [STATIC_POWER, if_neg (by decide), if_neg (by decide), if_neg (by decide),
      if_neg (by decide), if_neg (by decide), if_neg (by decide), if_pos rfl]
    norm_num

/-- C7: a clock-named signal is recognized by case-insensitive exact
match against clk, clock, sys_clk; with at least three edge timestamps
the period is the average spacing between every second edge times the
timescale — for timescale 1 ns and edges at ticks 0, 5, 10, 15, 20 the
period is 10 ns and the derived frequency is exactly 100 MHz (hence
within 0.1 percent); with fewer than three edges, or no clock-named
signal, the detected period is 0 (none reported). -/
theorem C7_theorem :
    mainFreq 0 (detect_clock_period [0, 5, 10, 15, 20] (timescaleOf 1 "ns")) =
      100 ∧
    (∀ (times : List ℕ) (ts : ℝ), times.length < 3 →
      detect_clock_period times ts = 0) ∧
    (∀ (sigs : List (String × List ℕ)) (ts : ℝ),
      (∀ p ∈ sigs, isClockName p.1 = false) →
      detect_clock_from_signals sigs ts = 0) := by
  refine ⟨?_, ?_, ?_⟩
  · have hts : timescaleOf 1 "ns" = 1e-9 := by
      rw [timescaleOf, unitScale, if_neg (by decide), if_neg (by decide),
        if_neg (by decide), if_pos rfl]
      norm_num
    have hsum :
        ((List.range ((([0, 5, 10, 15, 20] : List ℕ)).length - 2)).map
          (fun i => ((([0, 5, 10, 15, 20] : List ℕ).getD (i + 2) 0 : ℤ) -
            (([0, 5, 10, 15, 20] : List ℕ).getD i 0 : ℤ)))).sum = 30 := by
      decide
    have hp : detect_clock_period [0, 5, 10, 15, 20] 1e-9 = 1e-8 := by
      rw [detect_clock_period,
        if_pos (by decide : 3 ≤ ([0, 5, 10, 15, 20] : List ℕ).length)]
      rw [hsum]
      norm_num
    rw [hts, hp, mainFreq, if_pos ⟨rfl, by norm_num⟩]
    norm_num
  · intro times ts h
    rw [detect_clock_period, if_neg (by omega)]
  · intro sigs ts h
    have hf : sigs.filter (fun p => isClockName p.1) = [] := by
      rw [List.filter_eq_nil_iff]
      intro a ha
      simp [h a ha]
    unfold detect_clock_from_signals
    rw [hf]

/-- C7 witness: two edges yield no period, and a trace with no
clock-named signal yields no period. -/
theorem C7_witness :
    detect_clock_period [0, 5] 1e-9 = 0 ∧
    detect_clock_from_signals [("data", [0, 1, 2, 3])] 1e-9 = 0 :=
  ⟨C7_theorem.2.1 [0, 5] 1e-9 (by decide),
   C7_theorem.2.2 [("data", [0, 1, 2, 3])] 1e-9 (by decide)⟩

/-- C8 (amended): for positive voltage, static power is strictly
increasing in temperature; and on nonnegative voltages, raising the
voltage strictly raises the static power, all three per-toggle energies
and the clock-tree coefficient.  (At voltage 0 every such quantity is 0,
so the original unrestricted claim fails.) -/
theorem C8_theorem :
    (∀ (d : String) (t1 t2 v : ℝ), 0 < v → t1 < t2 →
      (mkModel d t1 v).static_power_mw < (mkModel d t2 v).static_power_mw) ∧
    (∀ (d : String) (t v1 v2 : ℝ), 0 ≤ v1 → v1 < v2 →
      (mkModel d t v1).static_power_mw < (mkModel d t v2).static_power_mw ∧
      (mkModel d t v1).lc_dynamic_nj < (mkModel d t v2).lc_dynamic_nj ∧
      (mkModel d t v1).ff_dynamic_nj < (mkModel d t v2).ff_dynamic_nj ∧
      (mkModel d t v1).io_dynamic_nj < (mkModel d t v2).io_dynamic_nj ∧
      (mkModel d t v1).clock_tree_mw_per_mhz <
        (mkModel d t v2).clock_tree_mw_per_mhz) := by
  constructor
  · intro d t1 t2 v hv h12
    have hB := STATIC_POWER_postInit_pos d
    have hsq : (0 : ℝ) < (v / 1.2) ^ 2 := by positivity
    have hexp : (2 : ℝ) ^ ((t1 - 25.0) / 12.0) < (2 : ℝ) ^ ((t2 - 25.0) / 12.0) :=
      Real.rpow_lt_rpow_of_exponent_lt (by norm_num) (by linarith)
    exact mul_lt_mul_of_pos_right (mul_lt_mul_of_pos_left hexp hB) hsq
  · intro d t v1 v2 h0 h12
    have hsq : (v1 / 1.2) ^ 2 < (v2 / 1.2) ^ 2 := by
      have ha : v1 / 1.2 < v2 / 1.2 := by
        apply div_lt_div_of_pos_right h12
        norm_num
      have hb : (0 : ℝ) ≤ v1 / 1.2 := by
        apply div_nonneg h0
        norm_num
      exact pow_lt_pow_left₀ ha hb (by norm_num)
    have hB := STATIC_POWER_postInit_pos d
    have hrp : (0 : ℝ) < (2 : ℝ) ^ ((t - 25.0) / 12.0) :=
      Real.rpow_pos_of_pos (by norm_num) _
    refine ⟨mul_lt_mul_of_pos_left hsq (mul_pos hB hrp), ?_, ?_, ?_, ?_⟩
    · exact mul_lt_mul_of_pos_left hsq (by split_ifs <;> norm_num)
    · exact mul_lt_mul_of_pos_left hsq (by split_ifs <;> norm_num)
    · exact mul_lt_mul_of_pos_left hsq (by norm_num)
    · exact mul_lt_mul_of_pos_left hsq (by split_ifs <;> norm_num)

/-- C8 witness: concrete strict increases for device hx8k. -/
theorem C8_witness :
    (mkModel "hx8k" 25 1.2).static_power_mw <
      (mkModel "hx8k" 37 1.2).static_power_mw ∧
    (mkModel "hx8k" 25 1.0).lc_dynamic_nj < (mkModel "hx8k" 25 1.2).lc_dynamic_nj :=
  ⟨C8_theorem.1 "hx8k" 25 37 1.2 (by norm_num) (by norm_num),
   (C8_theorem.2 "hx8k" 25 1.0 1.2 (by norm_num) (by norm_num)).2.1⟩

/-- C8 counterexample: at voltage 0 the static power is 0 at every
temperature (the voltage factor is 0), so strictly increasing the
temperature from 25 to 37 does not strictly increase the static power,
refuting the claim as stated for every voltage. -/
theorem C8_counterexample :
    ¬ ((mkModel "hx8k" 25 0).static_power_mw <
        (mkModel "hx8k" 37 0).static_power_mw) := by
  have h1 : ∀ t : ℝ, (mkModel "hx8k" t 0).static_power_mw = 0 := by
    intro t
    show STATIC_POWER (postInitDevice "hx8k") *
        (2 : ℝ) ^ ((t - 25.0) / 12.0) * ((0 : ℝ) / 1.2) ^ 2 = 0
    norm_num
  rw [h1, h1]
  exact lt_irrefl 0

/-- C9: an unrecognized device identifier is replaced (with a warning,
never an error) by the default hx8k, and the resulting model agrees with
the hx8k model at the same temperature and voltage on every derived
quantity: static power, the three per-toggle energies, the clock-tree
coefficient and the capacity. -/
theorem C9_theorem (d : String) (t v : ℝ)
    (h : knownDevice (strLower d) = false) :
    mkModel d t v = mkModel "hx8k" t v ∧
    (mkModel d t v).static_power_mw = (mkModel "hx8k" t v).static_power_mw ∧
    (mkModel d t v).lc_dynamic_nj = (mkModel "hx8k" t v).lc_dynamic_nj ∧
    (mkModel d t v).ff_dynamic_nj = (mkModel "hx8k" t v).ff_dynamic_nj ∧
    (mkModel d t v).io_dynamic_nj = (mkModel "hx8k" t v).io_dynamic_nj ∧
    (mkModel d t v).clock_tree_mw_per_mhz =
      (mkModel "hx8k" t v).clock_tree_mw_per_mhz ∧
    (mkModel d t v).total_capacity = (mkModel "hx8k" t v).total_capacity := by
  have hd : postInitDevice d = "hx8k" := by
    rw [postInitDevice, if_neg]
    rw [h]
    exact Bool.false_ne_true
  have he : mkModel d t v = mkModel "hx8k" t v := by
    have hdd : postInitDevice "hx8k" = "hx8k" := by decide
    rw [mkModel, mkModel, hd, hdd]
  exact ⟨he, by rw [he], by rw [he], by rw [he], by rw [he], by rw [he], by rw [he]⟩

/-- C9 witness: the unknown identifier foo yields exactly the hx8k
model. -/
theorem C9_witness : mkModel "foo" 25 1.2 = mkModel "hx8k" 25 1.2 :=
  ( C9_theorem "foo" 25 1.2 (by decide)).1
